import Mathlib

/-!
Shallow embedding of the view-transition core of the
`start-perfect-navigation` repository, together with the mock article
list loader.

Embedded source files:
* `src/app/rich-view-transitions/utils/handle-route-change-complete.ts`
  (`handleRouteChangeComplete`);
* the `Link` wrapper's `handleClick` (src/unnamed/part_000);
* `getMockArticleList` (src/unnamed/part_000).

The helpers `getElementSelector`, `cleanUpTransition`,
`handleTransitionStarted` and `setPlaceholderData` are imported by the
embedded files but their sources are not part of the provided tree;
they are modelled from the specification (each such definition carries a
doc comment starting with `Modelled from the spec:`).

JavaScript conventions captured by the embedding:
* `window.__NRVT_*` globals, `sessionStorage`, `document` and
  `location.origin` are gathered into one explicit state record `St`;
* an `undefined` string global is `Option.none`, and interpolating it
  into a template literal yields the text "undefined" (`optStr`);
* truthiness of a possibly-undefined string (`if (x)`) is
  `isTruthyStr` — both `undefined` and the empty string are falsy;
* `document.querySelector` returns the first matching element in
  document order, or `null` (`Option.none`);
* a DOM node's identity is its `selId` field: the selector resolver of
  the spec (§4.2) is modelled as returning exactly this per-element
  stable identifier.
-/

namespace NRVT

/-- A DOM element.  `selId` is the element's identity: the stable CSS
selector that the spec's selector resolver (§4.2) would compute for it.
`attrs` are the element's HTML attributes (the `src` attribute doubles
as the `.src` property in this model), `classes` its class list,
`domId` its `id` attribute, and `viewTransitionName` the
`style.viewTransitionName` property. -/
structure Element where
  selId : String
  domId : Option String
  classes : List String
  attrs : List (String × String)
  viewTransitionName : String
  deriving DecidableEq, Repr

/-- An arbitrary object supplied by a link as placeholder data. -/
structure PlaceholderData where
  fields : List (String × String)
  deriving DecidableEq, Repr

/-- The browser-global state visible to the transition subsystem:
the `window.__NRVT_*` slots, the session storage, the rendered
document, the last-stored placeholder object and `location.origin`. -/
structure St where
  routerKey : Option String
  previousRouterKey : Option String
  transitionImgSelector : Option String
  transitionAttributeName : Option String
  transitionAttributeValue : Option String
  sessionStorage : List (String × String)
  dom : List Element
  placeholderData : Option PlaceholderData
  locationOrigin : String
  deriving DecidableEq, Repr

/-- Rendering of a possibly-undefined string inside a JS template
literal: `undefined` prints as "undefined". -/
def optStr : Option String → String
  | none => "undefined"
  | some s => s

/-- JS truthiness of a string variable that may be `undefined`:
`undefined` and `""` are falsy. -/
def isTruthyStr : Option String → Bool
  | none => false
  | some s => s != ""

/-- `sessionStorage.setItem`: overwrite the value stored under `k`. -/
def setItem (m : List (String × String)) (k v : String) : List (String × String) :=
  (k, v) :: m.filter (fun p => p.1 != k)

/-- `sessionStorage.getItem`: the stored value, or `none` for JS `null`. -/
def getItem (m : List (String × String)) (k : String) : Option String :=
  (m.find? (fun p => p.1 == k)).map (fun p => p.2)

/-- First element of `dom` (document order) whose attribute `n`
literally equals `v` — the attribute selector `[n="v"]`. -/
def querySelectorByAttr (dom : List Element) (n v : String) : Option Element :=
  dom.find? (fun e => (e.attrs.find? (fun p => p.1 == n)).map (fun p => p.2) == some v)

/-- First element of `dom` carrying class `c` — the selector `.c`. -/
def querySelectorByClass (dom : List Element) (c : String) : Option Element :=
  dom.find? (fun e => e.classes.contains c)

/-- First element of `dom` with id `i` — the selector `#i`. -/
def querySelectorById (dom : List Element) (i : String) : Option Element :=
  dom.find? (fun e => e.domId == some i)

/-- Modelled from the spec: the element selector resolver
(`get-element-selector.ts`, spec §4.2).  Its contract is that the
computed selector uniquely re-locates the element
(`querySelector(resolve(el)) === el`); we model it as returning the
element's stable identifier `selId`. -/
def getElementSelector (e : Element) : String :=
  e.selId

/-- `document.querySelector` applied to a stored selector string:
finds the element whose computed selector equals the string. -/
def querySelector (dom : List Element) (sel : String) : Option Element :=
  dom.find? (fun e => getElementSelector e == sel)

/-- Modelled from the spec: `clean-up-transition.ts` (spec §4.4 step 4)
clears any view-transition name left on DOM elements from the prior
render pass; idempotent. -/
def cleanUpTransition (dom : List Element) : List Element :=
  dom.map (fun e => { e with viewTransitionName := "" })

/-- Assign `style.viewTransitionName := name` on the element identified
by `sel` (element identity is `selId`). -/
def setViewTransitionName (dom : List Element) (sel name : String) : List Element :=
  dom.map (fun e => if e.selId = sel then { e with viewTransitionName := name } else e)

/-- The view-transition name assigned by the route-change handler. -/
def transitionNameValue : String := "__NRVT_transition-img"

/-- The common session-storage key text
`__NRVT_view_transition_image_selector_`. -/
def storageKeyBase : String := "__NRVT_view_transition_image_selector_"

/-- The composite router-key text `${a}-${b}` used in storage keys. -/
def composedKey (a b : String) : String := a ++ "-" ++ b

/-- Lines 9–10 of `handle-route-change-complete.ts`: shift the current
router key into the previous slot and record the new one. -/
def shiftRouterKeys (st : St) (routerKey : Option String) : St :=
  { st with previousRouterKey := st.routerKey, routerKey := routerKey }

/-- Lines 13–17 of `handle-route-change-complete.ts`: if a transition
image selector was recorded on the forward leg, persist it under the
`previousRouterKey-routerKey` storage key and clear the transient slot. -/
def persistForwardSelector (st : St) : St :=
  if isTruthyStr st.transitionImgSelector then
    { st with
        sessionStorage := setItem st.sessionStorage
          (storageKeyBase ++ composedKey (optStr st.previousRouterKey) (optStr st.routerKey))
          (st.transitionImgSelector.getD ""),
        transitionImgSelector := none }
  else st

/-- The state after lines 9–17: keys shifted, forward selector persisted. -/
def afterStore (st : St) (routerKey : Option String) : St :=
  persistForwardSelector (shiftRouterKeys st routerKey)

/-- Line 19: the backward composite key `${routerKey}-${previousRouterKey}`. -/
def backRouterKeyOf (st : St) : String :=
  composedKey (optStr st.routerKey) (optStr st.previousRouterKey)

/-- Lines 20–21: read the backward storage entry and, when truthy,
resolve it against the current document. -/
def backLookup (st : St) : Option Element :=
  let imgSelector := getItem st.sessionStorage (storageKeyBase ++ backRouterKeyOf st)
  if isTruthyStr imgSelector then querySelector st.dom (imgSelector.getD "") else none

/-- Line 29: the attribute-selector query
`[${transitionAttributeName}="${transitionAttributeValue}"]` against
the current document (undefined slots interpolate as "undefined"). -/
def markerLookup (st : St) : Option Element :=
  querySelectorByAttr st.dom (optStr st.transitionAttributeName) (optStr st.transitionAttributeValue)

/-- Lines 24–38: given the backward-lookup result, either mark the
back-navigation element, or fall back to the pending-marker lookup
(marking the match and persisting its selector under the backward key),
and finally clear the marker's attribute value unconditionally. -/
def markPhase (st : St) (img : Option Element) : St :=
  match img with
  | some i =>
      { st with
          dom := setViewTransitionName st.dom i.selId transitionNameValue,
          transitionAttributeValue := none }
  | none =>
      match markerLookup st with
      | some t =>
          { st with
              dom := setViewTransitionName st.dom t.selId transitionNameValue,
              sessionStorage := setItem st.sessionStorage
                (storageKeyBase ++ backRouterKeyOf st) (getElementSelector t),
              transitionAttributeValue := none }
      | none => { st with transitionAttributeValue := none }

/-- `handleRouteChangeComplete` of
`src/app/rich-view-transitions/utils/handle-route-change-complete.ts`.
The backward lookup runs against the pre-cleanup document (line 21
precedes line 23); the marker lookup runs after `cleanUpTransition`. -/
def handleRouteChangeComplete (st : St) (routerKey : Option String) : St :=
  markPhase
    { afterStore st routerKey with dom := cleanUpTransition (afterStore st routerKey).dom }
    (backLookup (afterStore st routerKey))

/-- Modelled from the spec: the placeholder-data singleton
(`~/singletones/placeholderData`) keeps a single current slot,
last-write-wins (spec §3 PlaceholderData). -/
def setPlaceholderData (st : St) (d : Option PlaceholderData) : St :=
  { st with placeholderData := d }

/-- Modelled from the spec: `handleTransitionStarted` of
`~/view-transition-name-handler`.  Per §4.3 step 4 and §4.4 step 2, when
a transition image was found it registers the pending transition
target's attribute name/value and records the image's selector in the
transient forward slot; per §4.3 step 4 ("if found") together with the
§8 properties "no marker is set" (missing image) and "exactly the
second activation's … marker" (last-write-wins), an activation without
an image leaves no pending marker or recorded selector.  The router key
and transition name arguments are accepted as in the source call site. -/
def handleTransitionStarted (st : St) (routerKey : String) (fromElement : Option Element)
    (toAttributeName toAttributeValue transitionName : String) : St :=
  match fromElement with
  | some el =>
      { st with
          transitionAttributeName := some toAttributeName,
          transitionAttributeValue := some toAttributeValue,
          transitionImgSelector := some (getElementSelector el) }
  | none =>
      { st with
          transitionAttributeName := none,
          transitionAttributeValue := none,
          transitionImgSelector := none }

/-- Remove the first occurrence of `pat` from a character list —
JS `String.prototype.replace(pat, '')` with a string pattern.  An empty
pattern removes nothing, as in JS. -/
def removeFirstOcc (pat : List Char) : List Char → List Char
  | [] => []
  | c :: rest =>
      if pat ≠ [] ∧ pat.isPrefixOf (c :: rest) then (c :: rest).drop pat.length
      else c :: removeFirstOcc pat rest

/-- JS `s.replace(pat, '')` for string patterns: first occurrence only. -/
def jsReplaceFirst (s pat : String) : String :=
  String.mk (removeFirstOcc pat.data s.data)

/-- The `.src` property read in the model: the `src` attribute, or the
empty string when absent. -/
def srcOf (e : Element) : String :=
  ((e.attrs.find? (fun p => p.1 == "src")).map (fun p => p.2)).getD ""

/-- The `transitionImg` lookup of `handleClick`:
`e.currentTarget.querySelector('.transitionable-img') ||
document.querySelector('#transition-img')`. -/
def findTransitionImg (st : St) (link : List Element) : Option Element :=
  match querySelectorByClass link "transitionable-img" with
  | some e => some e
  | none => querySelectorById st.dom "transition-img"

/-- The `src` computation of `handleClick`:
`transitionImg ? transitionImg.src.replace(location.origin || '', '') : ''`
(an empty `location.origin` strips nothing, as `'' || ''` is `''`). -/
def clickSrc (st : St) (link : List Element) : String :=
  match findTransitionImg st link with
  | some e => jsReplaceFirst (srcOf e) st.locationOrigin
  | none => ""

/-- `handleClick` of the `Link` wrapper (src/unnamed/part_000
lines 93–110): store the placeholder data, search the activated link's
subtree for a `.transitionable-img` element falling back to the
document-global `#transition-img`, compute the image's resource path
stripped of `location.origin`, and hand both to
`handleTransitionStarted`.  The caller-supplied `onClick` and the
delegation to the router are outside the modelled state;
`setPlaceholderData` touches neither the document nor the origin, so
the lookups read them from `st` directly. -/
def handleClick (st : St) (link : List Element) (routerKey : String)
    (placeholderData : Option PlaceholderData) : St :=
  handleTransitionStarted (setPlaceholderData st placeholderData) routerKey
    (findTransitionImg st link) "src" (clickSrc st link) "transition-name"

/-- The selector-identities of the elements currently carrying the
assigned view-transition name. -/
def markedSelIds (dom : List Element) : List String :=
  (dom.filter (fun e => e.viewTransitionName == transitionNameValue)).map (fun e => e.selId)

/-! ## Mock article list loader (`getMockArticleList`, src/unnamed/part_000) -/

/-- The attribute object of a mock article entry.  The six named fields
are the ones the loader destructures or rebuilds; `further` stands for
any additional attribute fields of the raw mock entry, which the
rebuilt attribute object does not carry over. -/
structure ArticleAttributes where
  description : String
  headings : String
  previewContent : String
  thumbnail : String
  slug : String
  title : String
  further : List (String × String)
  deriving DecidableEq, Repr

/-- A top-level mock article entry: its `id` plus its attributes. -/
structure ArticleEntry where
  artId : Nat
  attributes : ArticleAttributes
  deriving DecidableEq, Repr

/-- `getMockArticleList` (src/unnamed/part_000 lines 4–28): take the
mock entry at index `origId % 20`, keep its top-level fields, and
rebuild its attributes from the destructured `description`, `headings`,
`previewContent`, `thumbnail` plus the synthesized `title` and `slug`.
The mock list (`public/mock.json`) is a parameter; an out-of-range
index is the JS runtime error, modelled as `none`. -/
def getMockArticleList (articlesList : List ArticleEntry) (origId : Nat) : Option ArticleEntry :=
  match articlesList.get? (origId % 20) with
  | none => none
  | some m =>
      some { m with
        attributes :=
          { description := m.attributes.description
            headings := m.attributes.headings
            previewContent := m.attributes.previewContent
            thumbnail := m.attributes.thumbnail
            slug := "lorem-ipsum-" ++ toString origId
            title := "Lorem ipsum " ++ toString origId
            further := [] } }

/-- Erase the two synthesized attribute fields, leaving everything a
mod-20-congruent input could share. -/
def eraseTitleSlug (a : ArticleEntry) : ArticleEntry :=
  { a with attributes := { a.attributes with title := "", slug := "" } }

/-! ## Session-storage lemmas -/

theorem getItem_setItem_self (m : List (String × String)) (k v : String) :
    getItem (setItem m k v) k = some v := by
  simp [getItem, setItem]

theorem find?_filter_ne (m : List (String × String)) (k k' : String) (h : k' ≠ k) :
    (m.filter (fun p => p.1 != k)).find? (fun p => p.1 == k') =
      m.find? (fun p => p.1 == k') := by
  induction m with
  | nil => rfl
  | cons a t ih =>
    by_cases hk : a.1 = k
    · have h2 : (a.1 == k') = false := by
        simp [hk]
        exact fun hh => h hh.symm
      have h3 : (k == k') = false := by
        simp
        exact fun hh => h hh.symm
      simp [List.filter_cons, hk, List.find?_cons, h2, h3, ih]
    · by_cases hk' : a.1 = k'
      · simp [List.filter_cons, hk, List.find?_cons, hk', h]
      · simp [List.filter_cons, hk, List.find?_cons, hk', ih]

theorem getItem_setItem_ne (m : List (String × String)) (k v k' : String) (h : k' ≠ k) :
    getItem (setItem m k v) k' = getItem m k' := by
  have h2 : (k == k') = false := by
    simp
    exact fun hh => h hh.symm
  simp [getItem, setItem, List.find?_cons, h2, find?_filter_ne m k k' h]

/-! ## String-key lemmas -/

theorem string_append_left_cancel {a b c : String} (h : a ++ b = a ++ c) : b = c := by
  have hd : a.data ++ b.data = a.data ++ c.data := by
    have h2 := congrArg String.data h
    simpa [String.data_append] using h2
  exact String.ext (List.append_cancel_left hd)

/-- The character test `c ≠ '-'` used to locate the key separator. -/
def notDash (c : Char) : Bool := c != '-'

theorem takeWhile_notDash_append (l r : List Char) (h : '-' ∉ l) :
    (l ++ '-' :: r).takeWhile notDash = l := by
  induction l with
  | nil => simp [List.takeWhile_cons, notDash]
  | cons c t ih =>
    have hc : c ≠ '-' := fun hh => h (by simp [hh])
    have ht : '-' ∉ t := fun hm => h (List.mem_cons_of_mem _ hm)
    simp [List.takeWhile_cons, notDash, hc, ih ht]

theorem composedKey_ne_of_noDash {a b : String} (ha : '-' ∉ a.data) (hb : '-' ∉ b.data)
    (hne : a ≠ b) : composedKey a b ≠ composedKey b a := by
  intro h
  have hdash : ("-" : String).data = ['-'] := rfl
  have hd : a.data ++ '-' :: b.data = b.data ++ '-' :: a.data := by
    have h2 := congrArg String.data h
    simpa [composedKey, String.data_append, hdash, List.append_assoc] using h2
  have h1 := congrArg (List.takeWhile notDash) hd
  rw [takeWhile_notDash_append a.data b.data ha, takeWhile_notDash_append b.data a.data hb] at h1
  exact hne (String.ext h1)

/-! ## Marking lemmas -/

theorem marked_cleanUp (dom : List Element) : markedSelIds (cleanUpTransition dom) = [] := by
  induction dom with
  | nil => rfl
  | cons e t ih =>
    simp [markedSelIds, cleanUpTransition, transitionNameValue, List.filter_cons]

theorem marked_setName_not_mem (dom : List Element) (s : String)
    (h : ∀ e ∈ dom, e.selId ≠ s) :
    markedSelIds (setViewTransitionName (cleanUpTransition dom) s transitionNameValue) = [] := by
  induction dom with
  | nil => rfl
  | cons e t ih =>
    have he : e.selId ≠ s := h e (by simp)
    have ht : ∀ x ∈ t, x.selId ≠ s := fun x hx => h x (by simp [hx])
    simpa [markedSelIds, setViewTransitionName, cleanUpTransition, transitionNameValue,
      List.filter_cons, he] using ih ht

theorem marked_setName_nodup (dom : List Element) (s : String)
    (hnd : (dom.map (fun e => e.selId)).Nodup)
    (hex : ∃ e ∈ dom, e.selId = s) :
    markedSelIds (setViewTransitionName (cleanUpTransition dom) s transitionNameValue) = [s] := by
  induction dom with
  | nil => simp at hex
  | cons e t ih =>
    have hnd' := hnd
    rw [List.map_cons, List.nodup_cons] at hnd'
    by_cases he : e.selId = s
    · have ht : ∀ x ∈ t, x.selId ≠ s := by
        intro x hx hxs
        exact hnd'.1 (he ▸ hxs ▸ List.mem_map_of_mem (fun e => e.selId) hx)
      have hrest := marked_setName_not_mem t s ht
      simpa [markedSelIds, setViewTransitionName, cleanUpTransition, transitionNameValue,
        List.filter_cons, he] using hrest
    · obtain ⟨x, hx, hxs⟩ := hex
      rcases List.mem_cons.mp hx with hxe | hxt
      · exact absurd (hxe ▸ hxs) he
      · simpa [markedSelIds, setViewTransitionName, cleanUpTransition, transitionNameValue,
          List.filter_cons, he] using ih hnd'.2 ⟨x, hxt, hxs⟩

theorem querySelector_of_mem (dom : List Element) (s : String)
    (hex : ∃ e ∈ dom, e.selId = s) :
    ∃ i, querySelector dom s = some i ∧ i.selId = s := by
  induction dom with
  | nil => simp at hex
  | cons e t ih =>
    by_cases he : e.selId = s
    · exact ⟨e, by simp [querySelector, getElementSelector, List.find?_cons, he], he⟩
    · obtain ⟨x, hx, hxs⟩ := hex
      rcases List.mem_cons.mp hx with hxe | hxt
      · exact absurd (hxe ▸ hxs) he
      · obtain ⟨i, hi, his⟩ := ih ⟨x, hxt, hxs⟩
        exact ⟨i, by simpa [querySelector, getElementSelector, List.find?_cons, he] using hi, his⟩

/-! ## Field lemmas for the completion handler -/

theorem afterStore_routerKey (st : St) (rk : Option String) :
    (afterStore st rk).routerKey = rk := by
  unfold afterStore persistForwardSelector
  split <;> rfl

theorem afterStore_previousRouterKey (st : St) (rk : Option String) :
    (afterStore st rk).previousRouterKey = st.routerKey := by
  unfold afterStore persistForwardSelector
  split <;> rfl

theorem afterStore_dom (st : St) (rk : Option String) :
    (afterStore st rk).dom = st.dom := by
  unfold afterStore persistForwardSelector
  split <;> rfl

theorem afterStore_attrName (st : St) (rk : Option String) :
    (afterStore st rk).transitionAttributeName = st.transitionAttributeName := by
  unfold afterStore persistForwardSelector
  split <;> rfl

theorem afterStore_attrValue (st : St) (rk : Option String) :
    (afterStore st rk).transitionAttributeValue = st.transitionAttributeValue := by
  unfold afterStore persistForwardSelector
  split <;> rfl

theorem afterStore_slot (st : St) (rk : Option String) :
    (afterStore st rk).transitionImgSelector =
      if isTruthyStr st.transitionImgSelector then none else st.transitionImgSelector := by
  unfold afterStore persistForwardSelector
  split <;> simp_all [shiftRouterKeys]

theorem afterStore_storage_truthy (st : St) (rk : Option String)
    (h : isTruthyStr st.transitionImgSelector = true) :
    (afterStore st rk).sessionStorage =
      setItem st.sessionStorage
        (storageKeyBase ++ composedKey (optStr st.routerKey) (optStr rk))
        (st.transitionImgSelector.getD "") := by
  unfold afterStore persistForwardSelector
  simp [shiftRouterKeys, h]

theorem afterStore_storage_falsy (st : St) (rk : Option String)
    (h : isTruthyStr st.transitionImgSelector = false) :
    (afterStore st rk).sessionStorage = st.sessionStorage := by
  unfold afterStore persistForwardSelector
  simp [shiftRouterKeys, h]

theorem backRouterKeyOf_afterStore (st : St) (rk : Option String) :
    backRouterKeyOf (afterStore st rk) = composedKey (optStr rk) (optStr st.routerKey) := by
  simp [backRouterKeyOf, afterStore_routerKey, afterStore_previousRouterKey]

theorem markPhase_tav (st : St) (img : Option Element) :
    (markPhase st img).transitionAttributeValue = none := by
  unfold markPhase
  cases img with
  | some i => rfl
  | none => cases h : markerLookup st <;> simp [h]

theorem markPhase_slot (st : St) (img : Option Element) :
    (markPhase st img).transitionImgSelector = st.transitionImgSelector := by
  unfold markPhase
  cases img with
  | some i => rfl
  | none => cases h : markerLookup st <;> simp [h]

theorem markPhase_routerKey (st : St) (img : Option Element) :
    (markPhase st img).routerKey = st.routerKey := by
  unfold markPhase
  cases img with
  | some i => rfl
  | none => cases h : markerLookup st <;> simp [h]

theorem markPhase_previousRouterKey (st : St) (img : Option Element) :
    (markPhase st img).previousRouterKey = st.previousRouterKey := by
  unfold markPhase
  cases img with
  | some i => rfl
  | none => cases h : markerLookup st <;> simp [h]

theorem markPhase_storage_ne (st : St) (img : Option Element) (k : String)
    (hk : k ≠ storageKeyBase ++ backRouterKeyOf st) :
    getItem (markPhase st img).sessionStorage k = getItem st.sessionStorage k := by
  unfold markPhase
  cases img with
  | some i => rfl
  | none =>
    cases h : markerLookup st with
    | some t => simp [h, getItem_setItem_ne _ _ _ _ hk]
    | none => rfl

theorem hrcc_tav (st : St) (rk : Option String) :
    (handleRouteChangeComplete st rk).transitionAttributeValue = none := by
  unfold handleRouteChangeComplete
  exact markPhase_tav _ _

theorem hrcc_routerKey (st : St) (rk : Option String) :
    (handleRouteChangeComplete st rk).routerKey = rk := by
  unfold handleRouteChangeComplete
  rw [markPhase_routerKey]
  exact afterStore_routerKey st rk

theorem hrcc_previousRouterKey (st : St) (rk : Option String) :
    (handleRouteChangeComplete st rk).previousRouterKey = st.routerKey := by
  unfold handleRouteChangeComplete
  rw [markPhase_previousRouterKey]
  exact afterStore_previousRouterKey st rk

theorem hrcc_slot (st : St) (rk : Option String) :
    (handleRouteChangeComplete st rk).transitionImgSelector =
      if isTruthyStr st.transitionImgSelector then none else st.transitionImgSelector := by
  unfold handleRouteChangeComplete
  rw [markPhase_slot]
  exact afterStore_slot st rk

theorem hrcc_storage_ne (st : St) (rk : Option String) (k : String)
    (hk : k ≠ storageKeyBase ++ composedKey (optStr rk) (optStr st.routerKey)) :
    getItem (handleRouteChangeComplete st rk).sessionStorage k =
      getItem (afterStore st rk).sessionStorage k := by
  unfold handleRouteChangeComplete
  rw [markPhase_storage_ne]
  intro hcontra
  apply hk
  rw [hcontra]
  have hb : backRouterKeyOf { afterStore st rk with dom := cleanUpTransition (afterStore st rk).dom } =
      composedKey (optStr rk) (optStr st.routerKey) := by
    have := backRouterKeyOf_afterStore st rk
    simpa [backRouterKeyOf] using this
  rw [hb]

theorem hrcc_backHit (st : St) (rk : Option String) (i : Element)
    (h : backLookup (afterStore st rk) = some i) :
    (handleRouteChangeComplete st rk).dom =
      setViewTransitionName (cleanUpTransition (afterStore st rk).dom) i.selId transitionNameValue
    ∧ (handleRouteChangeComplete st rk).sessionStorage = (afterStore st rk).sessionStorage := by
  unfold handleRouteChangeComplete
  rw [h]
  exact ⟨rfl, rfl⟩

theorem hrcc_backMiss (st : St) (rk : Option String)
    (h : backLookup (afterStore st rk) = none) :
    handleRouteChangeComplete st rk =
      markPhase { afterStore st rk with dom := cleanUpTransition (afterStore st rk).dom } none := by
  unfold handleRouteChangeComplete
  rw [h]

theorem isTruthyStr_some_of_ne {s : String} (h : s ≠ "") : isTruthyStr (some s) = true := by
  simp [isTruthyStr, h]

/-! ## Field lemmas for the click handler -/

theorem handleClick_routerKey (st : St) (link : List Element) (k : String)
    (pd : Option PlaceholderData) : (handleClick st link k pd).routerKey = st.routerKey := by
  unfold handleClick setPlaceholderData handleTransitionStarted
  cases findTransitionImg st link <;> rfl

theorem handleClick_dom (st : St) (link : List Element) (k : String)
    (pd : Option PlaceholderData) : (handleClick st link k pd).dom = st.dom := by
  unfold handleClick setPlaceholderData handleTransitionStarted
  cases findTransitionImg st link <;> rfl

theorem handleClick_storage (st : St) (link : List Element) (k : String)
    (pd : Option PlaceholderData) :
    (handleClick st link k pd).sessionStorage = st.sessionStorage := by
  unfold handleClick setPlaceholderData handleTransitionStarted
  cases findTransitionImg st link <;> rfl

theorem findTransitionImg_found (st : St) (link : List Element) (elA : Element)
    (hfind : querySelectorByClass link "transitionable-img" = some elA) :
    findTransitionImg st link = some elA := by
  unfold findTransitionImg
  rw [hfind]

theorem handleClick_found (st : St) (link : List Element) (k : String)
    (pd : Option PlaceholderData) (elA : Element)
    (hfind : querySelectorByClass link "transitionable-img" = some elA) :
    (handleClick st link k pd).transitionImgSelector = some elA.selId
    ∧ (handleClick st link k pd).transitionAttributeName = some "src"
    ∧ (handleClick st link k pd).transitionAttributeValue =
        some (jsReplaceFirst (srcOf elA) st.locationOrigin) := by
  unfold handleClick setPlaceholderData handleTransitionStarted clickSrc
  rw [findTransitionImg_found st link elA hfind]
  exact ⟨rfl, rfl, rfl⟩

/-- C1: for a forward navigation A→B started by a link click that found
the transitionable image `elA`, followed by a back navigation B→A with
the mirrored router-key pair, the element assigned the view-transition
name on the B→A completion is exactly the element (identity
`elA.selId`) that was marked transitionable during the A→B click —
provided an element with that identity still exists in the restored
DOM, the two composite storage keys do not collide, and element
identities in the restored DOM are unique. -/
theorem c1_roundtrip_marks_original_element
    (st0 : St) (link domB domA2 : List Element) (elA : Element)
    (keyA keyB : String) (pd : Option PlaceholderData)
    (h0 : st0.routerKey = some keyA)
    (hfind : querySelectorByClass link "transitionable-img" = some elA)
    (hsel : elA.selId ≠ "")
    (hkeys : composedKey keyA keyB ≠ composedKey keyB keyA)
    (hex : ∃ e ∈ domA2, e.selId = elA.selId)
    (hnd : (domA2.map (fun e => e.selId)).Nodup) :
    markedSelIds
      ((handleRouteChangeComplete
          { handleRouteChangeComplete
              { handleClick st0 link keyA pd with dom := domB } (some keyB)
            with dom := domA2 } (some keyA)).dom) = [elA.selId] := by
  have hKne : storageKeyBase ++ composedKey keyA keyB ≠
      storageKeyBase ++ composedKey keyB keyA :=
    fun hh => hkeys (string_append_left_cancel hh)
  obtain ⟨hslot, hname, hvalue⟩ := handleClick_found st0 link keyA pd elA hfind
  have hclickrk : (handleClick st0 link keyA pd).routerKey = some keyA := by
    rw [handleClick_routerKey, h0]
  -- the state on which the forward completion runs
  have hmidrk : ({ handleClick st0 link keyA pd with dom := domB } : St).routerKey = some keyA := hclickrk
  have hmidslot : ({ handleClick st0 link keyA pd with dom := domB } : St).transitionImgSelector =
      some elA.selId := hslot
  have htruthy : isTruthyStr
      ({ handleClick st0 link keyA pd with dom := domB } : St).transitionImgSelector = true := by
    rw [hmidslot]
    exact isTruthyStr_some_of_ne hsel
  -- the forward completion
  have hFrk : (handleRouteChangeComplete
      { handleClick st0 link keyA pd with dom := domB } (some keyB)).routerKey = some keyB :=
    hrcc_routerKey _ _
  have hFslot : (handleRouteChangeComplete
      { handleClick st0 link keyA pd with dom := domB } (some keyB)).transitionImgSelector =
      none := by
    rw [hrcc_slot, htruthy]
    rfl
  have hFstore : getItem (handleRouteChangeComplete
      { handleClick st0 link keyA pd with dom := domB } (some keyB)).sessionStorage
      (storageKeyBase ++ composedKey keyA keyB) = some elA.selId := by
    rw [hrcc_storage_ne]
    · rw [afterStore_storage_truthy _ _ htruthy, hmidrk, hmidslot]
      simp only [optStr, Option.getD]
      exact getItem_setItem_self _ _ _
    · rw [hmidrk]
      simpa [optStr] using hKne
  -- the backward completion
  obtain ⟨e0, he0, he0sel⟩ := querySelector_of_mem domA2 elA.selId hex
  have hBslotFalsy : isTruthyStr
      ({ handleRouteChangeComplete
          { handleClick st0 link keyA pd with dom := domB } (some keyB) with dom := domA2 } : St).transitionImgSelector = false := by
    have : ({ handleRouteChangeComplete
        { handleClick st0 link keyA pd with dom := domB } (some keyB) with dom := domA2 } : St).transitionImgSelector = none := hFslot
    rw [this]
    rfl
  have hbl : backLookup (afterStore
      { handleRouteChangeComplete
          { handleClick st0 link keyA pd with dom := domB } (some keyB) with dom := domA2 }
      (some keyA)) = some e0 := by
    unfold backLookup
    rw [backRouterKeyOf_afterStore, afterStore_storage_falsy _ _ hBslotFalsy,
      afterStore_dom, hFrk]
    simp only [optStr]
    rw [hFstore]
    rw [isTruthyStr_some_of_ne hsel]
    simp only [Option.getD]
    exact he0
  have hdom := (hrcc_backHit _ (some keyA) e0 hbl).1
  rw [hdom, afterStore_dom, he0sel]
  exact marked_setName_nodup domA2 elA.selId hnd hex

/-! ## Claim theorems -/

/-- C2 counterexample: in a completion where the backward lookup misses
and the pending marker matches an element of the fresh DOM, the matched
element's selector is persisted under the curr-prev key `r2-r1`, and no
entry at all exists under the prev-curr key `r1-r2` — refuting the
claim that the marker path stores under prev-curr. -/
theorem c2_forward_key_counterexample :
    markedSelIds (handleRouteChangeComplete
        { routerKey := some "r1", previousRouterKey := none, transitionImgSelector := none,
          transitionAttributeName := some "src", transitionAttributeValue := some "/img/a.png",
          sessionStorage := [],
          dom := [{ selId := "sB", domId := none, classes := [],
                    attrs := [("src", "/img/a.png")], viewTransitionName := "" }],
          placeholderData := none, locationOrigin := "" } (some "r2")).dom = ["sB"]
    ∧ getItem (handleRouteChangeComplete
        { routerKey := some "r1", previousRouterKey := none, transitionImgSelector := none,
          transitionAttributeName := some "src", transitionAttributeValue := some "/img/a.png",
          sessionStorage := [],
          dom := [{ selId := "sB", domId := none, classes := [],
                    attrs := [("src", "/img/a.png")], viewTransitionName := "" }],
          placeholderData := none, locationOrigin := "" } (some "r2")).sessionStorage
        (storageKeyBase ++ composedKey "r1" "r2") = none
    ∧ getItem (handleRouteChangeComplete
        { routerKey := some "r1", previousRouterKey := none, transitionImgSelector := none,
          transitionAttributeName := some "src", transitionAttributeValue := some "/img/a.png",
          sessionStorage := [],
          dom := [{ selId := "sB", domId := none, classes := [],
                    attrs := [("src", "/img/a.png")], viewTransitionName := "" }],
          placeholderData := none, locationOrigin := "" } (some "r2")).sessionStorage
        (storageKeyBase ++ composedKey "r2" "r1") = some "sB" := by
  decide

/-- C2 (amended): when the backward lookup misses and the pending
marker's attribute name/value matches element `t` in the freshly
rendered DOM, `handleRouteChangeComplete` assigns `t` the transition
name and persists `t`'s computed selector into session storage under
the curr-prev key (currentRouterKey followed by previousRouterKey —
the same composite as the backward lookup key), not prev-curr. -/
theorem c2_marker_match_stores_backward_key (st : St) (rk : Option String) (t : Element)
    (hb : backLookup (afterStore st rk) = none)
    (hm : markerLookup
        { afterStore st rk with dom := cleanUpTransition (afterStore st rk).dom } = some t) :
    (handleRouteChangeComplete st rk).dom =
      setViewTransitionName (cleanUpTransition (afterStore st rk).dom) t.selId transitionNameValue
    ∧ getItem (handleRouteChangeComplete st rk).sessionStorage
        (storageKeyBase ++ composedKey (optStr rk) (optStr st.routerKey)) = some t.selId := by
  rw [hrcc_backMiss st rk hb]
  unfold markPhase
  rw [hm]
  have hb2 : backRouterKeyOf
      { afterStore st rk with dom := cleanUpTransition (afterStore st rk).dom } =
      composedKey (optStr rk) (optStr st.routerKey) := backRouterKeyOf_afterStore st rk
  constructor
  · rfl
  · rw [hb2]
    exact getItem_setItem_self _ _ _

/-- C2 witness: the amended statement at a concrete completion. -/
theorem c2_marker_match_witness :
    (handleRouteChangeComplete
        { routerKey := some "r1", previousRouterKey := none, transitionImgSelector := none,
          transitionAttributeName := some "src", transitionAttributeValue := some "/img/a.png",
          sessionStorage := [],
          dom := [{ selId := "sB", domId := none, classes := [],
                    attrs := [("src", "/img/a.png")], viewTransitionName := "" }],
          placeholderData := none, locationOrigin := "" } (some "r2")).dom =
      setViewTransitionName
        (cleanUpTransition (afterStore
          { routerKey := some "r1", previousRouterKey := none, transitionImgSelector := none,
            transitionAttributeName := some "src", transitionAttributeValue := some "/img/a.png",
            sessionStorage := [],
            dom := [{ selId := "sB", domId := none, classes := [],
                      attrs := [("src", "/img/a.png")], viewTransitionName := "" }],
            placeholderData := none, locationOrigin := "" } (some "r2")).dom)
        "sB" transitionNameValue
    ∧ getItem (handleRouteChangeComplete
        { routerKey := some "r1", previousRouterKey := none, transitionImgSelector := none,
          transitionAttributeName := some "src", transitionAttributeValue := some "/img/a.png",
          sessionStorage := [],
          dom := [{ selId := "sB", domId := none, classes := [],
                    attrs := [("src", "/img/a.png")], viewTransitionName := "" }],
          placeholderData := none, locationOrigin := "" } (some "r2")).sessionStorage
        (storageKeyBase ++ composedKey "r2" "r1") = some "sB" :=
  c2_marker_match_stores_backward_key
    { routerKey := some "r1", previousRouterKey := none, transitionImgSelector := none,
      transitionAttributeName := some "src", transitionAttributeValue := some "/img/a.png",
      sessionStorage := [],
      dom := [{ selId := "sB", domId := none, classes := [],
                attrs := [("src", "/img/a.png")], viewTransitionName := "" }],
      placeholderData := none, locationOrigin := "" } (some "r2")
    { selId := "sB", domId := none, classes := [],
      attrs := [("src", "/img/a.png")], viewTransitionName := "" }
    (by decide) (by decide)

/-- C3: the backward lookup key is curr-prev (the swap of the forward
store key); when the stored selector resolves to a live element that
element alone is assigned the transition name and session storage is
left untouched by the marking phase (the pending-marker lookup is not
used); the marker lookup governs the outcome only when the backward
lookup yields no live element. -/
theorem c3_backward_lookup_priority (st : St) (rk : Option String) :
    backRouterKeyOf (shiftRouterKeys st rk) = composedKey (optStr rk) (optStr st.routerKey)
    ∧ (∀ i : Element, backLookup (afterStore st rk) = some i →
        (handleRouteChangeComplete st rk).dom =
          setViewTransitionName (cleanUpTransition (afterStore st rk).dom) i.selId
            transitionNameValue
        ∧ (handleRouteChangeComplete st rk).sessionStorage = (afterStore st rk).sessionStorage)
    ∧ (backLookup (afterStore st rk) = none →
        handleRouteChangeComplete st rk =
          markPhase { afterStore st rk with dom := cleanUpTransition (afterStore st rk).dom }
            none) := by
  refine ⟨rfl, ?_, ?_⟩
  · intro i h
    exact hrcc_backHit st rk i h
  · intro h
    exact hrcc_backMiss st rk h

/-- C3 witness: a concrete back/forward completion whose stored
backward selector resolves, so the resolved element is marked and the
storage is untouched. -/
theorem c3_backward_lookup_witness :
    (handleRouteChangeComplete
        { routerKey := some "r2", previousRouterKey := none, transitionImgSelector := none,
          transitionAttributeName := none, transitionAttributeValue := none,
          sessionStorage := [("__NRVT_view_transition_image_selector_r1-r2", "sA")],
          dom := [{ selId := "sA", domId := none, classes := [],
                    attrs := [("src", "/img/a.png")], viewTransitionName := "" }],
          placeholderData := none, locationOrigin := "" } (some "r1")).dom =
      setViewTransitionName
        (cleanUpTransition (afterStore
          { routerKey := some "r2", previousRouterKey := none, transitionImgSelector := none,
            transitionAttributeName := none, transitionAttributeValue := none,
            sessionStorage := [("__NRVT_view_transition_image_selector_r1-r2", "sA")],
            dom := [{ selId := "sA", domId := none, classes := [],
                      attrs := [("src", "/img/a.png")], viewTransitionName := "" }],
            placeholderData := none, locationOrigin := "" } (some "r1")).dom)
        "sA" transitionNameValue
    ∧ (handleRouteChangeComplete
        { routerKey := some "r2", previousRouterKey := none, transitionImgSelector := none,
          transitionAttributeName := none, transitionAttributeValue := none,
          sessionStorage := [("__NRVT_view_transition_image_selector_r1-r2", "sA")],
          dom := [{ selId := "sA", domId := none, classes := [],
                    attrs := [("src", "/img/a.png")], viewTransitionName := "" }],
          placeholderData := none, locationOrigin := "" } (some "r1")).sessionStorage =
      (afterStore
          { routerKey := some "r2", previousRouterKey := none, transitionImgSelector := none,
            transitionAttributeName := none, transitionAttributeValue := none,
            sessionStorage := [("__NRVT_view_transition_image_selector_r1-r2", "sA")],
            dom := [{ selId := "sA", domId := none, classes := [],
                      attrs := [("src", "/img/a.png")], viewTransitionName := "" }],
            placeholderData := none, locationOrigin := "" } (some "r1")).sessionStorage :=
  (c3_backward_lookup_priority
    { routerKey := some "r2", previousRouterKey := none, transitionImgSelector := none,
      transitionAttributeName := none, transitionAttributeValue := none,
      sessionStorage := [("__NRVT_view_transition_image_selector_r1-r2", "sA")],
      dom := [{ selId := "sA", domId := none, classes := [],
                attrs := [("src", "/img/a.png")], viewTransitionName := "" }],
      placeholderData := none, locationOrigin := "" } (some "r1")).2.1
    { selId := "sA", domId := none, classes := [],
      attrs := [("src", "/img/a.png")], viewTransitionName := "" }
    (by decide)

/-- C4 counterexample: with an empty transient slot but identical
previous and new router keys ("k"), the marker path still writes an
entry whose key `k-k` is exactly the prev-curr composite — refuting
"if the slot is empty, no such entry is written". -/
theorem c4_prev_curr_counterexample :
    ({ routerKey := some "k", previousRouterKey := none, transitionImgSelector := none,
       transitionAttributeName := some "src", transitionAttributeValue := some "/img/a.png",
       sessionStorage := [],
       dom := [{ selId := "sB", domId := none, classes := [],
                 attrs := [("src", "/img/a.png")], viewTransitionName := "" }],
       placeholderData := none, locationOrigin := "" } : St).transitionImgSelector = none
    ∧ getItem (handleRouteChangeComplete
        { routerKey := some "k", previousRouterKey := none, transitionImgSelector := none,
          transitionAttributeName := some "src", transitionAttributeValue := some "/img/a.png",
          sessionStorage := [],
          dom := [{ selId := "sB", domId := none, classes := [],
                    attrs := [("src", "/img/a.png")], viewTransitionName := "" }],
          placeholderData := none, locationOrigin := "" } (some "k")).sessionStorage
        (storageKeyBase ++ composedKey "k" "k") = some "sB" := by
  decide

/-- C4 (amended): provided the prev-curr and curr-prev composites
differ as strings, a truthy transient slot is persisted exactly under
prev-curr and cleared, while an empty slot writes nothing under
prev-curr and stays as it was. -/
theorem c4_forward_persist_amended (st : St) (rk : Option String)
    (hne : composedKey (optStr st.routerKey) (optStr rk) ≠
      composedKey (optStr rk) (optStr st.routerKey)) :
    (isTruthyStr st.transitionImgSelector = true →
        getItem (handleRouteChangeComplete st rk).sessionStorage
          (storageKeyBase ++ composedKey (optStr st.routerKey) (optStr rk)) =
          st.transitionImgSelector
        ∧ (handleRouteChangeComplete st rk).transitionImgSelector = none)
    ∧ (isTruthyStr st.transitionImgSelector = false →
        getItem (handleRouteChangeComplete st rk).sessionStorage
          (storageKeyBase ++ composedKey (optStr st.routerKey) (optStr rk)) =
          getItem st.sessionStorage
            (storageKeyBase ++ composedKey (optStr st.routerKey) (optStr rk))
        ∧ (handleRouteChangeComplete st rk).transitionImgSelector =
            st.transitionImgSelector) := by
  have hK : storageKeyBase ++ composedKey (optStr st.routerKey) (optStr rk) ≠
      storageKeyBase ++ composedKey (optStr rk) (optStr st.routerKey) :=
    fun hh => hne (string_append_left_cancel hh)
  constructor
  · intro ht
    constructor
    · rw [hrcc_storage_ne st rk _ hK, afterStore_storage_truthy st rk ht,
        getItem_setItem_self]
      cases hslot : st.transitionImgSelector with
      | none => rw [hslot] at ht; simp [isTruthyStr] at ht
      | some s => rfl
    · rw [hrcc_slot, ht]
      simp
  · intro ht
    constructor
    · rw [hrcc_storage_ne st rk _ hK, afterStore_storage_falsy st rk ht]
    · rw [hrcc_slot, ht]
      simp

/-- C4 witness: the amended statement at a concrete forward completion
with a truthy slot. -/
theorem c4_forward_persist_witness :
    getItem (handleRouteChangeComplete
        { routerKey := some "r1", previousRouterKey := none,
          transitionImgSelector := some "sA",
          transitionAttributeName := some "src", transitionAttributeValue := some "/img/a.png",
          sessionStorage := [], dom := [], placeholderData := none,
          locationOrigin := "" } (some "r2")).sessionStorage
      (storageKeyBase ++ composedKey (optStr (some "r1")) (optStr (some "r2"))) = some "sA"
    ∧ (handleRouteChangeComplete
        { routerKey := some "r1", previousRouterKey := none,
          transitionImgSelector := some "sA",
          transitionAttributeName := some "src", transitionAttributeValue := some "/img/a.png",
          sessionStorage := [], dom := [], placeholderData := none,
          locationOrigin := "" } (some "r2")).transitionImgSelector = none :=
  (c4_forward_persist_amended
    { routerKey := some "r1", previousRouterKey := none,
      transitionImgSelector := some "sA",
      transitionAttributeName := some "src", transitionAttributeValue := some "/img/a.png",
      sessionStorage := [], dom := [], placeholderData := none,
      locationOrigin := "" } (some "r2") (by decide)).1 (by decide)

/-- C5 counterexample: two completions from states that differ only in
the pending marker's attribute value mark different elements, so the
marker value cannot be cleared unconditionally at the start of
completion handling — a leftover marker does determine which element is
marked (the clearing happens at the end of the handler instead). -/
theorem c5_clear_at_start_counterexample :
    markedSelIds (handleRouteChangeComplete
        { routerKey := some "r1", previousRouterKey := none, transitionImgSelector := none,
          transitionAttributeName := some "src", transitionAttributeValue := some "/img/a.png",
          sessionStorage := [],
          dom := [{ selId := "sB", domId := none, classes := [],
                    attrs := [("src", "/img/a.png")], viewTransitionName := "" }],
          placeholderData := none, locationOrigin := "" } (some "r2")).dom = ["sB"]
    ∧ markedSelIds (handleRouteChangeComplete
        { routerKey := some "r1", previousRouterKey := none, transitionImgSelector := none,
          transitionAttributeName := some "src", transitionAttributeValue := none,
          sessionStorage := [],
          dom := [{ selId := "sB", domId := none, classes := [],
                    attrs := [("src", "/img/a.png")], viewTransitionName := "" }],
          placeholderData := none, locationOrigin := "" } (some "r2")).dom = [] := by
  decide

/-- C5 (amended): the pending marker's attribute value is cleared
unconditionally at the end of every route completion, independent of
whether any match succeeded; it is, however, read by the marker lookup
during that same completion. -/
theorem c5_marker_value_always_cleared (st : St) (rk : Option String) :
    (handleRouteChangeComplete st rk).transitionAttributeValue = none :=
  hrcc_tav st rk

/-- C6 counterexample: the distinct router keys "a" and "a-a" produce
identical prev-curr and curr-prev composites, so forward and backward
storage keys can collide. -/
theorem c6_key_collision_counterexample :
    composedKey "a" "a-a" = composedKey "a-a" "a" ∧ ("a" : String) ≠ "a-a" := by
  decide

/-- C6 (amended): for distinct router keys that contain no dash
character, the prev-curr composite differs from the curr-prev
composite, so forward-leg stores and backward-leg reads never address
the same entry. -/
theorem c6_distinct_keys_amended (prev curr : String)
    (hp : Char.ofNat 45 ∉ prev.data) (hc : Char.ofNat 45 ∉ curr.data)
    (hne : prev ≠ curr) :
    composedKey prev curr ≠ composedKey curr prev :=
  composedKey_ne_of_noDash hp hc hne

/-- C6 witness: the amended statement on the concrete keys "r1", "r2". -/
theorem c6_distinct_keys_witness : composedKey "r1" "r2" ≠ composedKey "r2" "r1" :=
  c6_distinct_keys_amended "r1" "r2" (by decide) (by decide) (by decide)

/-- Core of the double-miss case: backward lookup and marker lookup
both miss, so the completion only cleans up. -/
theorem hrcc_doubleMiss (st : St) (rk : Option String)
    (hb : backLookup (afterStore st rk) = none)
    (hm : markerLookup
        { afterStore st rk with dom := cleanUpTransition (afterStore st rk).dom } = none) :
    markedSelIds (handleRouteChangeComplete st rk).dom = []
    ∧ (handleRouteChangeComplete st rk).dom = cleanUpTransition (afterStore st rk).dom
    ∧ (handleRouteChangeComplete st rk).sessionStorage = (afterStore st rk).sessionStorage := by
  rw [hrcc_backMiss st rk hb]
  unfold markPhase
  rw [hm]
  exact ⟨marked_cleanUp _, rfl, rfl⟩

/-- C7: when the backward storage lookup yields no live element (entry
missing, selector empty, or stale selector resolving to nothing) and
the pending-marker lookup also misses, the completion leaves no element
carrying the transition name, the document is exactly the cleaned-up
render, and session storage is untouched — the handler, a total
function, degrades to the generic cross-fade with no failure. -/
theorem c7_miss_degrades_gracefully (st : St) (rk : Option String)
    (hb : backLookup (afterStore st rk) = none)
    (hm : markerLookup
        { afterStore st rk with dom := cleanUpTransition (afterStore st rk).dom } = none) :
    markedSelIds (handleRouteChangeComplete st rk).dom = []
    ∧ (handleRouteChangeComplete st rk).dom = cleanUpTransition (afterStore st rk).dom
    ∧ (handleRouteChangeComplete st rk).sessionStorage = (afterStore st rk).sessionStorage :=
  hrcc_doubleMiss st rk hb hm

/-- C7 witness: a completion with a stale stored selector (no element
of the document carries it) and no matching marker. -/
theorem c7_miss_witness :
    markedSelIds (handleRouteChangeComplete
        { routerKey := some "r2", previousRouterKey := none, transitionImgSelector := none,
          transitionAttributeName := none, transitionAttributeValue := none,
          sessionStorage := [("__NRVT_view_transition_image_selector_r1-r2", "sGone")],
          dom := [{ selId := "sB", domId := none, classes := [],
                    attrs := [("src", "/img/b.png")], viewTransitionName := "old" }],
          placeholderData := none, locationOrigin := "" } (some "r1")).dom = []
    ∧ (handleRouteChangeComplete
        { routerKey := some "r2", previousRouterKey := none, transitionImgSelector := none,
          transitionAttributeName := none, transitionAttributeValue := none,
          sessionStorage := [("__NRVT_view_transition_image_selector_r1-r2", "sGone")],
          dom := [{ selId := "sB", domId := none, classes := [],
                    attrs := [("src", "/img/b.png")], viewTransitionName := "old" }],
          placeholderData := none, locationOrigin := "" } (some "r1")).dom =
      cleanUpTransition (afterStore
        { routerKey := some "r2", previousRouterKey := none, transitionImgSelector := none,
          transitionAttributeName := none, transitionAttributeValue := none,
          sessionStorage := [("__NRVT_view_transition_image_selector_r1-r2", "sGone")],
          dom := [{ selId := "sB", domId := none, classes := [],
                    attrs := [("src", "/img/b.png")], viewTransitionName := "old" }],
          placeholderData := none, locationOrigin := "" } (some "r1")).dom
    ∧ (handleRouteChangeComplete
        { routerKey := some "r2", previousRouterKey := none, transitionImgSelector := none,
          transitionAttributeName := none, transitionAttributeValue := none,
          sessionStorage := [("__NRVT_view_transition_image_selector_r1-r2", "sGone")],
          dom := [{ selId := "sB", domId := none, classes := [],
                    attrs := [("src", "/img/b.png")], viewTransitionName := "old" }],
          placeholderData := none, locationOrigin := "" } (some "r1")).sessionStorage =
      (afterStore
        { routerKey := some "r2", previousRouterKey := none, transitionImgSelector := none,
          transitionAttributeName := none, transitionAttributeValue := none,
          sessionStorage := [("__NRVT_view_transition_image_selector_r1-r2", "sGone")],
          dom := [{ selId := "sB", domId := none, classes := [],
                    attrs := [("src", "/img/b.png")], viewTransitionName := "" }],
          placeholderData := none, locationOrigin := "" } (some "r1")).sessionStorage :=
  c7_miss_degrades_gracefully
    { routerKey := some "r2", previousRouterKey := none, transitionImgSelector := none,
      transitionAttributeName := none, transitionAttributeValue := none,
      sessionStorage := [("__NRVT_view_transition_image_selector_r1-r2", "sGone")],
      dom := [{ selId := "sB", domId := none, classes := [],
                attrs := [("src", "/img/b.png")], viewTransitionName := "old" }],
      placeholderData := none, locationOrigin := "" } (some "r1")
    (by decide) (by decide)

/-- C1 witness: a concrete A→B→A roundtrip in which the clicked image
("sA") is restored and marked on the backward completion. -/
theorem c1_roundtrip_witness :
    markedSelIds
      ((handleRouteChangeComplete
          { handleRouteChangeComplete
              { handleClick
                  { routerKey := some "a", previousRouterKey := none,
                    transitionImgSelector := none, transitionAttributeName := none,
                    transitionAttributeValue := none, sessionStorage := [],
                    dom := [{ selId := "sA", domId := none, classes := ["transitionable-img"],
                              attrs := [("src", "/img/a.png")], viewTransitionName := "" }],
                    placeholderData := none, locationOrigin := "" }
                  [{ selId := "sA", domId := none, classes := ["transitionable-img"],
                     attrs := [("src", "/img/a.png")], viewTransitionName := "" }]
                  "a" none
                with dom := [{ selId := "sB", domId := none, classes := [],
                               attrs := [("src", "/img/a.png")], viewTransitionName := "" }] }
              (some "b")
            with dom := [{ selId := "sA", domId := none, classes := ["transitionable-img"],
                           attrs := [("src", "/img/a.png")], viewTransitionName := "" }] }
          (some "a")).dom) = ["sA"] :=
  c1_roundtrip_marks_original_element
    { routerKey := some "a", previousRouterKey := none,
      transitionImgSelector := none, transitionAttributeName := none,
      transitionAttributeValue := none, sessionStorage := [],
      dom := [{ selId := "sA", domId := none, classes := ["transitionable-img"],
                attrs := [("src", "/img/a.png")], viewTransitionName := "" }],
      placeholderData := none, locationOrigin := "" }
    [{ selId := "sA", domId := none, classes := ["transitionable-img"],
       attrs := [("src", "/img/a.png")], viewTransitionName := "" }]
    [{ selId := "sB", domId := none, classes := [],
       attrs := [("src", "/img/a.png")], viewTransitionName := "" }]
    [{ selId := "sA", domId := none, classes := ["transitionable-img"],
       attrs := [("src", "/img/a.png")], viewTransitionName := "" }]
    { selId := "sA", domId := none, classes := ["transitionable-img"],
      attrs := [("src", "/img/a.png")], viewTransitionName := "" }
    "a" "b" none
    (by decide) (by decide) (by decide) (by decide) (by decide) (by decide)

theorem handleClick_locationOrigin (st : St) (link : List Element) (k : String)
    (pd : Option PlaceholderData) :
    (handleClick st link k pd).locationOrigin = st.locationOrigin := by
  unfold handleClick setPlaceholderData handleTransitionStarted
  cases findTransitionImg st link <;> rfl

/-- Closed form of `handleClick`: a single record update of the input
state, by cases on whether a transition image was found. -/
theorem handleClick_eq (st : St) (link : List Element) (k : String)
    (pd : Option PlaceholderData) :
    handleClick st link k pd =
      match findTransitionImg st link with
      | some e =>
          { st with placeholderData := pd, transitionAttributeName := some "src",
                    transitionAttributeValue := some (clickSrc st link),
                    transitionImgSelector := some e.selId }
      | none =>
          { st with placeholderData := pd, transitionAttributeName := none,
                    transitionAttributeValue := none, transitionImgSelector := none } := by
  unfold handleClick setPlaceholderData handleTransitionStarted getElementSelector
  cases findTransitionImg st link <;> rfl

theorem handleClick_notfound (st : St) (link : List Element) (k : String)
    (pd : Option PlaceholderData)
    (hfi : findTransitionImg st link = none) :
    (handleClick st link k pd).transitionAttributeName = none
    ∧ (handleClick st link k pd).transitionAttributeValue = none
    ∧ (handleClick st link k pd).transitionImgSelector = none := by
  rw [handleClick_eq, hfi]
  exact ⟨rfl, rfl, rfl⟩

/-- C8: a click that finds no transitionable image (neither a
`.transitionable-img` in the link's subtree nor a global
`#transition-img`) registers no pending marker, and the following route
completion — assuming no stored backward entry and no element carrying
an attribute literally named "undefined" — only cleans up: the document
is the cleaned render, storage is untouched, and nothing is marked. -/
theorem c8_no_image_click_cleanup_only
    (st0 : St) (link newDom : List Element) (k : String) (pd : Option PlaceholderData)
    (rk : Option String)
    (hnoclass : querySelectorByClass link "transitionable-img" = none)
    (hnoid : querySelectorById st0.dom "transition-img" = none)
    (hback : getItem st0.sessionStorage
        (storageKeyBase ++ composedKey (optStr rk) (optStr st0.routerKey)) = none)
    (hattr : querySelectorByAttr (cleanUpTransition newDom) "undefined" "undefined" = none) :
    (handleClick st0 link k pd).transitionAttributeName = none
    ∧ (handleClick st0 link k pd).transitionAttributeValue = none
    ∧ (handleClick st0 link k pd).transitionImgSelector = none
    ∧ (handleRouteChangeComplete { handleClick st0 link k pd with dom := newDom } rk).dom =
        cleanUpTransition newDom
    ∧ (handleRouteChangeComplete
        { handleClick st0 link k pd with dom := newDom } rk).sessionStorage =
        st0.sessionStorage
    ∧ markedSelIds (handleRouteChangeComplete
        { handleClick st0 link k pd with dom := newDom } rk).dom = [] := by
  have hfi : findTransitionImg st0 link = none := by
    unfold findTransitionImg
    rw [hnoclass]
    exact hnoid
  obtain ⟨hname, hvalue, hslot⟩ := handleClick_notfound st0 link k pd hfi
  have hmidslot : ({ handleClick st0 link k pd with dom := newDom } : St).transitionImgSelector =
      none := hslot
  have hmidname : ({ handleClick st0 link k pd with dom := newDom } : St).transitionAttributeName =
      none := hname
  have hmidvalue : ({ handleClick st0 link k pd with dom := newDom } : St).transitionAttributeValue =
      none := hvalue
  have hmidrk : ({ handleClick st0 link k pd with dom := newDom } : St).routerKey =
      st0.routerKey := handleClick_routerKey st0 link k pd
  have hmidstore : ({ handleClick st0 link k pd with dom := newDom } : St).sessionStorage =
      st0.sessionStorage := handleClick_storage st0 link k pd
  have hfalsy : isTruthyStr
      ({ handleClick st0 link k pd with dom := newDom } : St).transitionImgSelector = false := by
    rw [hmidslot]
    rfl
  have hasStore : (afterStore { handleClick st0 link k pd with dom := newDom } rk).sessionStorage =
      st0.sessionStorage := by
    rw [afterStore_storage_falsy _ _ hfalsy]
    exact hmidstore
  have hbl : backLookup (afterStore { handleClick st0 link k pd with dom := newDom } rk) = none := by
    unfold backLookup
    rw [backRouterKeyOf_afterStore, hasStore, hmidrk, hback]
    rfl
  have hml : markerLookup
      { afterStore { handleClick st0 link k pd with dom := newDom } rk with
        dom := cleanUpTransition
          (afterStore { handleClick st0 link k pd with dom := newDom } rk).dom } = none := by
    unfold markerLookup
    have hn : (afterStore { handleClick st0 link k pd with dom := newDom } rk).transitionAttributeName =
        none := by
      rw [afterStore_attrName]
      exact hmidname
    have hv : (afterStore { handleClick st0 link k pd with dom := newDom } rk).transitionAttributeValue =
        none := by
      rw [afterStore_attrValue]
      exact hmidvalue
    have hd : (afterStore { handleClick st0 link k pd with dom := newDom } rk).dom = newDom :=
      afterStore_dom _ _
    rw [show ({ afterStore { handleClick st0 link k pd with dom := newDom } rk with
          dom := cleanUpTransition
            (afterStore { handleClick st0 link k pd with dom := newDom } rk).dom } : St).transitionAttributeName =
        (afterStore { handleClick st0 link k pd with dom := newDom } rk).transitionAttributeName
      from rfl, hn]
    rw [show ({ afterStore { handleClick st0 link k pd with dom := newDom } rk with
          dom := cleanUpTransition
            (afterStore { handleClick st0 link k pd with dom := newDom } rk).dom } : St).transitionAttributeValue =
        (afterStore { handleClick st0 link k pd with dom := newDom } rk).transitionAttributeValue
      from rfl, hv]
    rw [show ({ afterStore { handleClick st0 link k pd with dom := newDom } rk with
          dom := cleanUpTransition
            (afterStore { handleClick st0 link k pd with dom := newDom } rk).dom } : St).dom =
        cleanUpTransition (afterStore { handleClick st0 link k pd with dom := newDom } rk).dom
      from rfl, hd]
    exact hattr
  obtain ⟨hmk, hdm, hst⟩ := hrcc_doubleMiss _ rk hbl hml
  refine ⟨hname, hvalue, hslot, ?_, ?_, hmk⟩
  · rw [hdm, afterStore_dom]
  · rw [hst]
    exact hasStore

/-- C9: two link activations in immediate succession leave exactly the
state of the second activation alone — the placeholder slot and the
pending transition marker are single current slots with last-write-wins
semantics. -/
theorem c9_last_write_wins (st : St) (l1 l2 : List Element) (k1 k2 : String)
    (p1 p2 : Option PlaceholderData) :
    handleClick (handleClick st l1 k1 p1) l2 k2 p2 = handleClick st l2 k2 p2 := by
  have hdom : (handleClick st l1 k1 p1).dom = st.dom := handleClick_dom st l1 k1 p1
  have hf : findTransitionImg (handleClick st l1 k1 p1) l2 = findTransitionImg st l2 := by
    unfold findTransitionImg
    rw [hdom]
  have horig : (handleClick st l1 k1 p1).locationOrigin = st.locationOrigin :=
    handleClick_locationOrigin st l1 k1 p1
  have hs : clickSrc (handleClick st l1 k1 p1) l2 = clickSrc st l2 := by
    unfold clickSrc
    rw [hf, horig]
  rw [handleClick_eq (handleClick st l1 k1 p1) l2 k2 p2, hf, hs,
    handleClick_eq st l2 k2 p2, handleClick_eq st l1 k1 p1]
  cases h2 : findTransitionImg st l2 <;> cases h1 : findTransitionImg st l1 <;> rfl

/-- C8 witness: a concrete click on a link with no transitionable image
followed by a completion that only cleans up. -/
theorem c8_no_image_witness :
    (handleClick
        { routerKey := some "r1", previousRouterKey := none, transitionImgSelector := none,
          transitionAttributeName := none, transitionAttributeValue := none,
          sessionStorage := [], dom := [], placeholderData := none, locationOrigin := "" }
        [] "r1" none).transitionAttributeName = none
    ∧ (handleClick
        { routerKey := some "r1", previousRouterKey := none, transitionImgSelector := none,
          transitionAttributeName := none, transitionAttributeValue := none,
          sessionStorage := [], dom := [], placeholderData := none, locationOrigin := "" }
        [] "r1" none).transitionAttributeValue = none
    ∧ (handleClick
        { routerKey := some "r1", previousRouterKey := none, transitionImgSelector := none,
          transitionAttributeName := none, transitionAttributeValue := none,
          sessionStorage := [], dom := [], placeholderData := none, locationOrigin := "" }
        [] "r1" none).transitionImgSelector = none
    ∧ (handleRouteChangeComplete
        { handleClick
            { routerKey := some "r1", previousRouterKey := none, transitionImgSelector := none,
              transitionAttributeName := none, transitionAttributeValue := none,
              sessionStorage := [], dom := [], placeholderData := none, locationOrigin := "" }
            [] "r1" none
          with dom := [{ selId := "sB", domId := none, classes := [],
                         attrs := [("src", "/img/b.png")], viewTransitionName := "old" }] }
        (some "r2")).dom =
      cleanUpTransition [{ selId := "sB", domId := none, classes := [],
                           attrs := [("src", "/img/b.png")], viewTransitionName := "old" }]
    ∧ (handleRouteChangeComplete
        { handleClick
            { routerKey := some "r1", previousRouterKey := none, transitionImgSelector := none,
              transitionAttributeName := none, transitionAttributeValue := none,
              sessionStorage := [], dom := [], placeholderData := none, locationOrigin := "" }
            [] "r1" none
          with dom := [{ selId := "sB", domId := none, classes := [],
                         attrs := [("src", "/img/b.png")], viewTransitionName := "old" }] }
        (some "r2")).sessionStorage = []
    ∧ markedSelIds (handleRouteChangeComplete
        { handleClick
            { routerKey := some "r1", previousRouterKey := none, transitionImgSelector := none,
              transitionAttributeName := none, transitionAttributeValue := none,
              sessionStorage := [], dom := [], placeholderData := none, locationOrigin := "" }
            [] "r1" none
          with dom := [{ selId := "sB", domId := none, classes := [],
                         attrs := [("src", "/img/b.png")], viewTransitionName := "old" }] }
        (some "r2")).dom = [] :=
  c8_no_image_click_cleanup_only
    { routerKey := some "r1", previousRouterKey := none, transitionImgSelector := none,
      transitionAttributeName := none, transitionAttributeValue := none,
      sessionStorage := [], dom := [], placeholderData := none, locationOrigin := "" }
    [] [{ selId := "sB", domId := none, classes := [],
          attrs := [("src", "/img/b.png")], viewTransitionName := "old" }]
    "r1" none (some "r2")
    (by decide) (by decide) (by decide) (by decide)

/-- C10: `getMockArticleList` returns the mock entry at index
`origId % 20` with its attributes rebuilt so that the title is
"Lorem ipsum {origId}" and the slug is "lorem-ipsum-{origId}", while
description, headings, previewContent and thumbnail come unchanged from
that entry; consequently two inputs congruent modulo 20 produce results
that differ only in title and slug. -/
theorem c10_mock_article (L : List ArticleEntry) (a b : Nat)
    (h : 20 ≤ L.length) (hab : a % 20 = b % 20) :
    (∃ m, L.get? (a % 20) = some m ∧
      getMockArticleList L a = some { m with attributes :=
        { description := m.attributes.description
          headings := m.attributes.headings
          previewContent := m.attributes.previewContent
          thumbnail := m.attributes.thumbnail
          slug := "lorem-ipsum-" ++ toString a
          title := "Lorem ipsum " ++ toString a
          further := [] } })
    ∧ (getMockArticleList L a).map eraseTitleSlug =
        (getMockArticleList L b).map eraseTitleSlug := by
  have ha : a % 20 < L.length := lt_of_lt_of_le (Nat.mod_lt a (by norm_num)) h
  have hb2 : b % 20 < L.length := hab ▸ ha
  have hm : L.get? (a % 20) = some (L.get ⟨a % 20, ha⟩) := List.get?_eq_get ha
  have hmb : L.get? (b % 20) = some (L.get ⟨b % 20, hb2⟩) := List.get?_eq_get hb2
  have hg : L.get ⟨b % 20, hb2⟩ = L.get ⟨a % 20, ha⟩ := by
    congr 1
    exact Fin.ext hab.symm
  constructor
  · refine ⟨L.get ⟨a % 20, ha⟩, hm, ?_⟩
    unfold getMockArticleList
    rw [hm]
  · unfold getMockArticleList
    rw [hm, hmb, hg]
    simp [eraseTitleSlug]

/-- C10 witness: the statement at the concrete list of twenty copies of
one entry and the congruent inputs 3 and 43. -/
theorem c10_mock_article_witness :
    (∃ m, (List.replicate 20
        ({ artId := 7,
           attributes := { description := "d", headings := "h", previewContent := "p",
                           thumbnail := "t", slug := "s", title := "ti",
                           further := [("publishedAt", "2024")] } } : ArticleEntry)).get?
        (3 % 20) = some m ∧
      getMockArticleList (List.replicate 20
        ({ artId := 7,
           attributes := { description := "d", headings := "h", previewContent := "p",
                           thumbnail := "t", slug := "s", title := "ti",
                           further := [("publishedAt", "2024")] } } : ArticleEntry)) 3 =
        some { m with attributes :=
          { description := m.attributes.description
            headings := m.attributes.headings
            previewContent := m.attributes.previewContent
            thumbnail := m.attributes.thumbnail
            slug := "lorem-ipsum-" ++ toString 3
            title := "Lorem ipsum " ++ toString 3
            further := [] } })
    ∧ (getMockArticleList (List.replicate 20
        ({ artId := 7,
           attributes := { description := "d", headings := "h", previewContent := "p",
                           thumbnail := "t", slug := "s", title := "ti",
                           further := [("publishedAt", "2024")] } } : ArticleEntry)) 3).map
        eraseTitleSlug =
      (getMockArticleList (List.replicate 20
        ({ artId := 7,
           attributes := { description := "d", headings := "h", previewContent := "p",
                           thumbnail := "t", slug := "s", title := "ti",
                           further := [("publishedAt", "2024")] } } : ArticleEntry)) 43).map
        eraseTitleSlug :=
  c10_mock_article
    (List.replicate 20
      ({ artId := 7,
         attributes := { description := "d", headings := "h", previewContent := "p",
                         thumbnail := "t", slug := "s", title := "ti",
                         further := [("publishedAt", "2024")] } } : ArticleEntry))
    3 43 (by decide) (by decide)

end NRVT
